import Mathlib

/-!
Verification of the shell in `app/main.py` (an interactive command shell:
tokenized line → redirection parsing → builtin dispatch or PATH-based
executable resolution → scoped stream redirection).

Python strings are embedded as `List Char`; the filesystem, the environment
and other OS facilities are explicit oracles carried in a `World` record,
so that every translated function is executable and observable effects
(filesystem probes, file-handle opens/closes, stream swaps, printed
messages) are recorded as data.
-/

set_option maxRecDepth 4000

/-- Python `str`, embedded as a list of characters. -/
abbrev PyStr := List Char

/-- Literal helper: a Lean string literal viewed as a `PyStr`. -/
def pystr (s : String) : PyStr := s.data

/-- Python `s.startswith(p)`. -/
def pyStartsWith (s p : PyStr) : Bool := p.isPrefixOf s

/-- Python `t.split(sep, 1)[1]`: everything after the first occurrence of
`sep` in `t`.  All call sites in the source guarantee that `sep` occurs in
`t` (the enclosing branch tested a prefix containing `sep`), so the
out-of-occurrence default `[]` is unreachable. -/
def splitRest (sep : PyStr) : PyStr → PyStr
  | [] => []
  | c :: rest =>
    if pyStartsWith (c :: rest) sep then (c :: rest).drop sep.length
    else splitRest sep rest

/-- Python `os.path.isabs` on POSIX: starts with a slash. -/
def pyIsAbs (s : PyStr) : Bool := pyStartsWith s (pystr "/")

/-- Python `os.path.join(a, b)` on POSIX. -/
def pyJoin (a b : PyStr) : PyStr :=
  if pyIsAbs b then b
  else if a = [] ∨ a.getLast? = some '/' then a ++ b
  else a ++ '/' :: b

/-- Python `raw.split(sep)` for a one-character separator. -/
def splitSep (sep : Char) : PyStr → List PyStr
  | [] => [[]]
  | c :: rest =>
    if c = sep then [] :: splitSep sep rest
    else
      match splitSep sep rest with
      | [] => [[c]]
      | p :: ps => (c :: p) :: ps

/-- Whitespace stripped by Python `int(str)`. -/
def isPyWS (c : Char) : Bool :=
  c = ' ' ∨ c = '\t' ∨ c = '\n' ∨ c = '\r' ∨ c = '\x0b' ∨ c = '\x0c'

/-- Strip `isPyWS` characters from both ends. -/
def stripWS (s : PyStr) : PyStr :=
  ((s.dropWhile isPyWS).reverse.dropWhile isPyWS).reverse

/-- Decimal digit accumulation for `int(str)`, allowing single underscores
between digits (as Python does). -/
def digitsVal : Nat → PyStr → Option Nat
  | acc, [] => some acc
  | acc, c :: rest =>
    if c.isDigit then digitsVal (acc * 10 + (c.toNat - 48)) rest
    else if c = '_' then
      match rest with
      | [] => none
      | d :: rest2 =>
        if d.isDigit then digitsVal (acc * 10 + (d.toNat - 48)) rest2 else none
    else none

/-- Digit run that must start with a digit. -/
def parseDigits : PyStr → Option Nat
  | [] => none
  | c :: rest => if c.isDigit then digitsVal (c.toNat - 48) rest else none

/-- Python `int(s)` for decimal strings: surrounding whitespace stripped,
optional sign, nonempty digit run (with underscores between digits);
`none` models `ValueError`. -/
def pyInt (s : PyStr) : Option Int :=
  match stripWS s with
  | '+' :: rest => (parseDigits rest).map Int.ofNat
  | '-' :: rest => (parseDigits rest).map (fun n => -(Int.ofNat n))
  | rest => (parseDigits rest).map Int.ofNat

/-- Python `" ".join(args)`. -/
def joinSp (args : List PyStr) : PyStr := List.intercalate (pystr " ") args

/-- The three standard streams a redirection can target. -/
inductive StreamName
  | out
  | err
  | inp
deriving DecidableEq, Repr

/-- Everything the shell prints, as structured messages (the payloads are
the interpolated parts of the corresponding f-strings in the source). -/
inductive Out
  | line (s : PyStr)                     -- builtin `echo` / `pwd` output
  | noFilename (s : StreamName)          -- "Error: no filename provided for <s> redirection"
  | openErr (s : StreamName) (f : PyStr) -- "Error opening <f> for <s> redirection: ..."
  | exitArity (n : Nat)                  -- "exit: Invalid number of arguments...)"
  | exitNumeric (a : PyStr)              -- "exit: <a>: numeric argument required"
  | typeArity (n : Nat)                  -- "type: Invalid number of arguments..."
  | isBuiltin (t : PyStr)                -- "<t> is a shell builtin"
  | typeIs (t p : PyStr)                 -- "<t> is <p>"
  | typeNotFound (t : PyStr)             -- "<t>: not found"
  | cdArity (n : Nat)                    -- "cd: Invalid number of arguments..."
  | cdNoSuch (t : PyStr)                 -- "cd: <t>: No such file or directory"
  | cdNotDir (t : PyStr)                 -- "cd: <t>: Cannot cd into a file"
  | cdOsErr (t : PyStr)                  -- "cd: <t>: <e>" from the except-branch
  | cmdNotFound (c : PyStr)              -- "<c>: command not found"
deriving DecidableEq, Repr

/-- A redirection spec as built by `parse_redirections`: the
`(fname, mode)` pair, where `fname` is `None` when the operator had no
attached text and no following token, and the mode is the `open` mode
character (`'w'`, `'a'`, `'r'`). -/
abbrev Info := Option PyStr × Char

/-- The loop state of `parse_redirections` (main.py lines 161-165). -/
structure ParseAcc where
  stdout_info : Option Info
  stderr_info : Option Info
  stdin_info : Option Info
  cleaned : List PyStr
deriving DecidableEq, Repr

/-- Store an `Info` into the field selected by a stream name. -/
def setStreamInfo (s : StreamName) (info : Info) (acc : ParseAcc) : ParseAcc :=
  match s with
  | .out => { acc with stdout_info := some info }
  | .err => { acc with stderr_info := some info }
  | .inp => { acc with stdin_info := some info }

/-- Read the field selected by a stream name. -/
def getStreamInfo (s : StreamName) (acc : ParseAcc) : Option Info :=
  match s with
  | .out => acc.stdout_info
  | .err => acc.stderr_info
  | .inp => acc.stdin_info

/-- One iteration of the `parse_redirections` scanning loop (main.py lines
167-223), as a decision from the current token `t` and the lookahead
`next_token()`: `none` means the token passes through to `cleaned`;
`some (s, info, adv)` means stream `s` is set to `info` and `adv` records
whether the following token was consumed as the filename (`advance = 1`
in the source, i.e. `i += 2`). -/
def redirStep (t : PyStr) (nxt : Option PyStr) :
    Option (StreamName × Info × Bool) :=
  -- `if t.startswith("1>>") or t.startswith(">>")`
  if pyStartsWith t (pystr "1>>") ∨ pyStartsWith t (pystr ">>") then
    let rem := splitRest (pystr ">>") t
    if rem = [] then some (.out, (nxt, 'a'), true)
    else some (.out, (some rem, 'a'), false)
  -- `elif t.startswith("1>") or t.startswith(">")`
  else if pyStartsWith t (pystr "1>") ∨ pyStartsWith t (pystr ">") then
    let rem := splitRest (pystr ">") t
    if rem = [] then some (.out, (nxt, 'w'), true)
    else some (.out, (some rem, 'w'), false)
  -- `elif t.startswith("2>>")`
  else if pyStartsWith t (pystr "2>>") then
    let rem := t.drop 3
    if rem = [] then some (.err, (nxt, 'a'), true)
    else some (.err, (some rem, 'a'), false)
  -- `elif t.startswith("2>")`
  else if pyStartsWith t (pystr "2>") then
    let rem := t.drop 2
    if rem = [] then some (.err, (nxt, 'w'), true)
    else some (.err, (some rem, 'w'), false)
  -- `elif t.startswith("<")`
  else if pyStartsWith t (pystr "<") then
    let rem := t.drop 1
    if rem = [] then some (.inp, (nxt, 'r'), true)
    else some (.inp, (some rem, 'r'), false)
  -- `elif t in (">", ">>", "1>", "1>>", "2>", "2>>", "<")` (separate tokens)
  else if t = pystr ">" ∨ t = pystr ">>" ∨ t = pystr "1>" ∨ t = pystr "1>>" ∨
          t = pystr "2>" ∨ t = pystr "2>>" ∨ t = pystr "<" then
    if t = pystr ">" ∨ t = pystr "1>" then some (.out, (nxt, 'w'), true)
    else if t = pystr ">>" ∨ t = pystr "1>>" then some (.out, (nxt, 'a'), true)
    else if t = pystr "2>" then some (.err, (nxt, 'w'), true)
    else if t = pystr "2>>" then some (.err, (nxt, 'a'), true)
    else some (.inp, (nxt, 'r'), true)
  else none

/-- The scanning loop of `parse_redirections` (main.py lines 167-229).
The one-token case is the iteration at `i = len(tokens) - 1`, where
`next_token()` is `None` and the loop ends whether the iteration advances
one or two positions. -/
def parseLoop : List PyStr → ParseAcc → ParseAcc
  | [], acc => acc
  | [t], acc =>
    match redirStep t none with
    | none => { acc with cleaned := acc.cleaned ++ [t] }
    | some (s, info, _) => setStreamInfo s info acc
  | t :: x :: rest, acc =>
    match redirStep t (some x) with
    | none => parseLoop (x :: rest) { acc with cleaned := acc.cleaned ++ [t] }
    | some (s, info, adv) =>
      if adv then parseLoop rest (setStreamInfo s info acc)
      else parseLoop (x :: rest) (setStreamInfo s info acc)

/-- Result of `parse_redirections`: the 4-tuple returned by the source
plus the diagnostics it printed. -/
structure ParseOut where
  cleaned : List PyStr
  so : Option Info
  se : Option Info
  si : Option Info
  msgs : List Out
deriving DecidableEq, Repr

/-- The validation test of main.py line 233:
`info is not None and (info[0] is None or info[0] == "")`. -/
def infoBad : Option Info → Bool
  | none => false
  | some (none, _) => true
  | some (some f, _) => f.isEmpty

/-- `parse_redirections(tokens)` (main.py lines 159-237): scan, then
validate the three specs in order stdout, stderr, stdin; on the first
invalid one print the diagnostic and return `cleaned, None, None, None`. -/
def parse_redirections (tokens : List PyStr) : ParseOut :=
  let acc := parseLoop tokens ⟨none, none, none, []⟩
  if infoBad acc.stdout_info then
    ⟨acc.cleaned, none, none, none, [Out.noFilename .out]⟩
  else if infoBad acc.stderr_info then
    ⟨acc.cleaned, none, none, none, [Out.noFilename .err]⟩
  else if infoBad acc.stdin_info then
    ⟨acc.cleaned, none, none, none, [Out.noFilename .inp]⟩
  else ⟨acc.cleaned, acc.stdout_info, acc.stderr_info, acc.stdin_info, []⟩

/-!
## The event view of the scan (for the last-wins property)

`redirEvents` replays the scanning loop of `parse_redirections` and records,
in left-to-right order, the `(stream, (filename, mode))` assignment each
handled redirection operator performs.  It makes the same decisions as
`parseLoop` (both go through `redirStep`), and the loop's final spec for a
stream is the last event for that stream.
-/

/-- Stream assignments performed by the scanning loop, in order. -/
def redirEvents : List PyStr → List (StreamName × Info)
  | [] => []
  | [t] =>
    match redirStep t none with
    | none => []
    | some (s, info, _) => [(s, info)]
  | t :: x :: rest =>
    match redirStep t (some x) with
    | none => redirEvents (x :: rest)
    | some (s, info, adv) =>
      if adv then (s, info) :: redirEvents rest
      else (s, info) :: redirEvents (x :: rest)

/-- Overwriting fold step: a later assignment to stream `s` wins. -/
def lastUpd (s : StreamName) (cur : Option Info) (e : StreamName × Info) :
    Option Info :=
  if e.1 = s then some e.2 else cur

/-- The spec the last assignment to stream `s` left behind, if any. -/
def lastEv (s : StreamName) (evs : List (StreamName × Info)) : Option Info :=
  evs.foldl (lastUpd s) none

/-- Number of redirection operators targeting stream `s`. -/
def countEv (s : StreamName) (evs : List (StreamName × Info)) : Nat :=
  (evs.filter (fun e => e.1 = s)).length

/-- Number of iterations the scanning loop of `parse_redirections`
performs (each iteration consumes one or two tokens). -/
def parseIters : List PyStr → Nat
  | [] => 0
  | [_] => 1
  | t :: x :: rest =>
    1 + match redirStep t (some x) with
        | none => parseIters (x :: rest)
        | some (_, _, adv) =>
          if adv then parseIters rest else parseIters (x :: rest)

/-!
## The variant of the parser without the "Separate tokens" branch (C8)
-/

/-- `redirStep` with the source's `elif t in (">", ">>", "1>", "1>>",
"2>", "2>>", "<")` arm (main.py lines 210-223) deleted. -/
def redirStepNoSep (t : PyStr) (nxt : Option PyStr) :
    Option (StreamName × Info × Bool) :=
  if pyStartsWith t (pystr "1>>") ∨ pyStartsWith t (pystr ">>") then
    let rem := splitRest (pystr ">>") t
    if rem = [] then some (.out, (nxt, 'a'), true)
    else some (.out, (some rem, 'a'), false)
  else if pyStartsWith t (pystr "1>") ∨ pyStartsWith t (pystr ">") then
    let rem := splitRest (pystr ">") t
    if rem = [] then some (.out, (nxt, 'w'), true)
    else some (.out, (some rem, 'w'), false)
  else if pyStartsWith t (pystr "2>>") then
    let rem := t.drop 3
    if rem = [] then some (.err, (nxt, 'a'), true)
    else some (.err, (some rem, 'a'), false)
  else if pyStartsWith t (pystr "2>") then
    let rem := t.drop 2
    if rem = [] then some (.err, (nxt, 'w'), true)
    else some (.err, (some rem, 'w'), false)
  else if pyStartsWith t (pystr "<") then
    let rem := t.drop 1
    if rem = [] then some (.inp, (nxt, 'r'), true)
    else some (.inp, (some rem, 'r'), false)
  else none

/-- The scanning loop over `redirStepNoSep`. -/
def parseLoopNoSep : List PyStr → ParseAcc → ParseAcc
  | [], acc => acc
  | [t], acc =>
    match redirStepNoSep t none with
    | none => { acc with cleaned := acc.cleaned ++ [t] }
    | some (s, info, _) => setStreamInfo s info acc
  | t :: x :: rest, acc =>
    match redirStepNoSep t (some x) with
    | none =>
      parseLoopNoSep (x :: rest) { acc with cleaned := acc.cleaned ++ [t] }
    | some (s, info, adv) =>
      if adv then parseLoopNoSep rest (setStreamInfo s info acc)
      else parseLoopNoSep (x :: rest) (setStreamInfo s info acc)

/-- `parse_redirections` with the "Separate tokens" branch deleted. -/
def parse_redirections_noSep (tokens : List PyStr) : ParseOut :=
  let acc := parseLoopNoSep tokens ⟨none, none, none, []⟩
  if infoBad acc.stdout_info then
    ⟨acc.cleaned, none, none, none, [Out.noFilename .out]⟩
  else if infoBad acc.stderr_info then
    ⟨acc.cleaned, none, none, none, [Out.noFilename .err]⟩
  else if infoBad acc.stdin_info then
    ⟨acc.cleaned, none, none, none, [Out.noFilename .inp]⟩
  else ⟨acc.cleaned, acc.stdout_info, acc.stderr_info, acc.stdin_info, []⟩

/-!
## The process world: environment, filesystem oracles, executable cache

OS facilities used by the source are explicit oracles so every function is
executable; `probes` counts the filesystem tests performed by
`find_executable_in_path` (the `os.path.exists`/`os.access`/`os.path.isfile`
conjunction on one candidate counts as one probe).
-/

/-- The mutable process state plus the OS oracles the source consults. -/
structure World where
  /-- `os.environ`, as an association list; a later binding for a key
  shadows earlier ones (lookup takes the first match). -/
  env : List (PyStr × PyStr)
  /-- `os.getcwd()`. -/
  cwd : PyStr
  /-- `os.path.exists`. -/
  fsExists : PyStr → Bool
  /-- `os.path.isfile`. -/
  fsIsFile : PyStr → Bool
  /-- `os.path.isdir`. -/
  fsIsDir : PyStr → Bool
  /-- `os.access(·, os.X_OK)`. -/
  fsAccessX : PyStr → Bool
  /-- whether `os.chdir(·)` succeeds (models the OS-level `except` branch
  of `builtin_cd`). -/
  chdirOk : PyStr → Bool
  /-- `os.path.expanduser`. -/
  expanduser : PyStr → PyStr
  /-- the module-level `_exec_cache` dict, newest binding first. -/
  execCache : List (PyStr × Option PyStr)
  /-- whether `open(fname, mode)` succeeds. -/
  openOk : PyStr → Char → Bool
  /-- `subprocess.run([path] + args).returncode`. -/
  runExit : PyStr → List PyStr → Int
  /-- instrumentation: number of filesystem probes performed so far. -/
  probes : Nat

/-- First-match lookup in an association list (Python dict read). -/
def lookupA {β : Type} : List (PyStr × β) → PyStr → Option β
  | [], _ => none
  | (k, v) :: rest, key => if k = key then some v else lookupA rest key

/-- `get_env(key, default)` (main.py lines 20-22). -/
def get_env (W : World) (key dflt : PyStr) : PyStr :=
  (lookupA W.env key).getD dflt

/-- `get_path_dirs()` (main.py lines 27-30): split `PATH` on `:`
(POSIX `os.pathsep`), empty value giving no directories. -/
def get_path_dirs (W : World) : List PyStr :=
  let raw := get_env W (pystr "PATH") (pystr "")
  if raw = [] then [] else splitSep ':' raw

/-- The executable test of main.py lines 39/48:
`os.path.exists(p) and os.access(p, os.X_OK) and os.path.isfile(p)`. -/
def probeOk (W : World) (p : PyStr) : Bool :=
  W.fsExists p && W.fsAccessX p && W.fsIsFile p

/-- The `for d in get_path_dirs()` loop of `find_executable_in_path`
(main.py lines 44-54): skip empty directories, probe `d/name`, cache and
return the first hit; after the loop cache and return not-found. -/
def searchDirs (W : World) (name : PyStr) : List PyStr → World × Option PyStr
  | [] =>
    ({ W with execCache := (name, none) :: W.execCache }, none)
  | d :: ds =>
    if d = [] then searchDirs W name ds
    else
      let candidate := pyJoin d name
      let W1 := { W with probes := W.probes + 1 }
      if probeOk W candidate then
        ({ W1 with execCache := (name, some candidate) :: W1.execCache },
         some candidate)
      else searchDirs W1 name ds

/-- `find_executable_in_path(name)` (main.py lines 32-54). Note that in
the absolute-path branch a failed test returns without writing the cache
(source line 42). -/
def find_executable_in_path (W : World) (name : PyStr) :
    World × Option PyStr :=
  match lookupA W.execCache name with
  | some v => (W, v)
  | none =>
    if pyIsAbs name then
      let W1 := { W with probes := W.probes + 1 }
      if probeOk W name then
        ({ W1 with execCache := (name, some name) :: W1.execCache },
         some name)
      else (W1, none)
    else searchDirs W name (get_path_dirs W)

/-!
## Builtins and the command executor
-/

/-- Result of one `execute_command` call: the updated world, the messages
printed, and the `SystemExit` code when the builtin requested an exit
(`execute_command` re-raises `SystemExit`, main.py lines 248-249). -/
structure ExecRes where
  world : World
  outs : List Out
  exitc : Option Int

/-- The keys of the `shell_builtins` registry (main.py lines 121-127). -/
def shell_builtin_names : List PyStr :=
  [pystr "echo", pystr "exit", pystr "type", pystr "pwd", pystr "cd"]

/-- `builtin_exit(args)` (main.py lines 62-73): no arguments exits 0, two
or more report an arity error, a non-integer reports "numeric argument
required", an integer raises `SystemExit(code)`. -/
def builtin_exit (args : List PyStr) : List Out × Option Int :=
  match args with
  | [] => ([], some 0)
  | [a] =>
    match pyInt a with
    | none => ([Out.exitNumeric a], none)
    | some code => ([], some code)
  | _ => ([Out.exitArity args.length], none)

/-- `builtin_type(args)` (main.py lines 75-87). -/
def builtin_type (W : World) (args : List PyStr) : ExecRes :=
  match args with
  | [target] =>
    if target ∈ shell_builtin_names then ⟨W, [Out.isBuiltin target], none⟩
    else
      let r := find_executable_in_path W target
      match r.2 with
      | some p => ⟨r.1, [Out.typeIs target p], none⟩
      | none => ⟨r.1, [Out.typeNotFound target], none⟩
  | _ => ⟨W, [Out.typeArity args.length], none⟩

/-- The `~`-expansion step of `builtin_cd` (main.py lines 103-104). -/
def cd_expand (W : World) (target : PyStr) : PyStr :=
  if pyStartsWith target (pystr "~") then W.expanduser target else target

/-- The target computation of `builtin_cd` (main.py lines 103-106):
`~`-expansion, then resolution against the current working directory. -/
def cd_target (W : World) (target : PyStr) : PyStr :=
  if pyIsAbs (cd_expand W target) then cd_expand W target
  else pyJoin W.cwd (cd_expand W target)

/-- The existence/directory/chdir part of `builtin_cd`
(main.py lines 108-118), on the already-resolved target. -/
def cd_go (W : World) (t : PyStr) : ExecRes :=
  if W.fsExists t = false then ⟨W, [Out.cdNoSuch t], none⟩
  else if W.fsIsDir t = false then ⟨W, [Out.cdNotDir t], none⟩
  else if W.chdirOk t then
    ⟨{ W with cwd := t, env := (pystr "PWD", t) :: W.env }, [], none⟩
  else ⟨W, [Out.cdOsErr t], none⟩

/-- `builtin_cd(args)` (main.py lines 94-118). -/
def builtin_cd (W : World) (args : List PyStr) : ExecRes :=
  match args with
  | [] => cd_go W (cd_target W (get_env W (pystr "HOME")
            (W.expanduser (pystr "~"))))
  | [d] => cd_go W (cd_target W d)
  | _ => ⟨W, [Out.cdArity args.length], none⟩

/-- Dispatch through the `shell_builtins` dict: `some` when `name` is a
registered builtin.  The embedded builtins are total, so the
`except Exception` arm of `execute_command` has no work to do. -/
def run_builtin (W : World) (name : PyStr) (args : List PyStr) :
    Option ExecRes :=
  if name = pystr "echo" then some ⟨W, [Out.line (joinSp args)], none⟩
  else if name = pystr "exit" then
    let r := builtin_exit args
    some ⟨W, r.1, r.2⟩
  else if name = pystr "type" then some (builtin_type W args)
  else if name = pystr "pwd" then some ⟨W, [Out.line W.cwd], none⟩
  else if name = pystr "cd" then some (builtin_cd W args)
  else none

/-- `execute_command(cmd_name, args)` (main.py lines 242-267): builtins
first (re-raising `SystemExit`), then PATH resolution, then the external
launch (whose non-zero exit status is only observed for diagnostics). -/
def execute_command (W : World) (cmd : PyStr) (args : List PyStr) : ExecRes :=
  match run_builtin W cmd args with
  | some r => r
  | none =>
    let r := find_executable_in_path W cmd
    match r.2 with
    | none => ⟨r.1, [Out.cmdNotFound cmd], none⟩
    | some p =>
      let _rc := W.runExit p args
      ⟨r.1, [], none⟩

/-!
## Stream redirection around one command (main.py lines 132-157, 321-374)

Streams are identified by numbers (`sys.stdout` / `sys.stderr` /
`sys.stdin` hold one at a time); freshly opened redirection files get the
local handles 0, 1, 2 in open order within the line.  `enterAll` models
entering the `redirect_*_to` context managers through the `ExitStack`
(each saves the current stream and substitutes the file); `exitAll`
models the stack unwinding, which restores the saved streams in reverse
(LIFO) order.
-/

/-- The current values of `sys.stdout`, `sys.stderr`, `sys.stdin`. -/
structure IOSt where
  outS : Nat
  errS : Nat
  inS : Nat
deriving DecidableEq, Repr

/-- Read the stream selected by a stream name. -/
def getS (s : StreamName) (io : IOSt) : Nat :=
  match s with
  | .out => io.outS
  | .err => io.errS
  | .inp => io.inS

/-- Replace the stream selected by a stream name. -/
def setS (s : StreamName) (v : Nat) (io : IOSt) : IOSt :=
  match s with
  | .out => { io with outS := v }
  | .err => { io with errS := v }
  | .inp => { io with inS := v }

/-- Enter the redirection contexts in order: each saves the stream it is
about to replace (`orig = sys.stdout; sys.stdout = fobj`) and the saved
values are returned in enter order. -/
def enterAll : List (StreamName × Nat) → IOSt → IOSt × List (StreamName × Nat)
  | [], io => (io, [])
  | (s, f) :: cs, io =>
    let saved := getS s io
    let r := enterAll cs (setS s f io)
    (r.1, (s, saved) :: r.2)

/-- Unwind the `ExitStack`: restore saved streams in reverse order (the
head of the saved list was entered first, so it is restored last). -/
def exitAll : List (StreamName × Nat) → IOSt → IOSt
  | [], io => io
  | (s, v) :: sv, io => setS s v (exitAll sv io)

/-- One `open(fname, mode)` attempt for one redirection spec (one of the
three blocks at main.py lines 325-355).  State is
`(contexts, files_to_close, next fresh handle)`; on failure the source
prints the diagnostic and `continue`s, so the caller receives the files
opened so far (to be closed by the `finally`). -/
def openOne (W : World) (s : StreamName) (spec : Option Info)
    (st : List (StreamName × Nat) × List Nat × Nat) :
    (List (StreamName × Nat) × List Nat × Nat) ⊕ (List Nat × Out) :=
  match spec with
  | none => .inl st
  | some (fo, md) =>
    -- validation guarantees `fo = some fname` with `fname` nonempty here
    let fn := fo.getD []
    if W.openOk fn md then
      .inl (st.1 ++ [(s, st.2.2)], st.2.1 ++ [st.2.2], st.2.2 + 1)
    else .inr (st.2.1, Out.openErr s fn)

/-- Everything observable about the handling of one input line. -/
structure LineResult where
  world : World
  io : IOSt
  msgs : List Out
  /-- handles opened for this line's redirections (`files_to_close`). -/
  openedFiles : List Nat
  /-- close calls performed on this line's handles (the exit path closes
  each handle twice: once in the inner `except SystemExit` handler and
  once in the `finally`; re-closing a closed file is a no-op). -/
  closedFiles : List Nat
  /-- whether the `with ExitStack()` block was reached. -/
  entered : Bool
  /-- whether `execute_command` was invoked. -/
  executed : Bool
  /-- the `SystemExit` code propagating out of the line, if any. -/
  exitReq : Option Int

/-- The per-line body of `main` after tokenization (main.py lines
318-374): parse redirections, open the targets in order stdout, stderr,
stdin (`continue` on the first failure, with the `finally` closing
whatever was opened), enter the contexts through the `ExitStack`, run the
command, and on every path restore the streams and close the files. -/
def processLine (W : World) (io : IOSt) (cmd : PyStr) (args : List PyStr) :
    LineResult :=
  let P := parse_redirections args
  match openOne W .out P.so ([], [], 0) with
  | .inr fe =>
    ⟨W, io, P.msgs ++ [fe.2], fe.1, fe.1, false, false, none⟩
  | .inl st1 =>
    match openOne W .err P.se st1 with
    | .inr fe =>
      ⟨W, io, P.msgs ++ [fe.2], fe.1, fe.1, false, false, none⟩
    | .inl st2 =>
      match openOne W .inp P.si st2 with
      | .inr fe =>
        ⟨W, io, P.msgs ++ [fe.2], fe.1, fe.1, false, false, none⟩
      | .inl st3 =>
        let es := enterAll st3.1 io
        let R := execute_command W cmd P.cleaned
        { world := R.world
          io := exitAll es.2 es.1
          msgs := P.msgs ++ R.outs
          openedFiles := st3.2.1
          closedFiles := (if R.exitc.isSome then st3.2.1 else []) ++ st3.2.1
          entered := true
          executed := true
          exitReq := R.exitc }

/-- Whether some redirection target fails to open for this line, in the
source's sequential order (stdout, then stderr, then stdin). -/
def openFailed (W : World) (P : ParseOut) : Bool :=
  match openOne W .out P.so ([], [], 0) with
  | .inr _ => true
  | .inl st1 =>
    match openOne W .err P.se st1 with
    | .inr _ => true
    | .inl st2 =>
      match openOne W .inp P.si st2 with
      | .inr _ => true
      | .inl _ => false

/-- Outcome of running the shell on a sequence of (already tokenized)
input lines. -/
structure ShellRes where
  msgs : List Out
  /-- number of lines actually dispatched to `processLine`. -/
  processedLines : Nat
  /-- the code of the `SystemExit` swallowed by `except SystemExit: break`
  in `main` (main.py lines 367-368), if one was raised. -/
  caughtExit : Option Int
  /-- the process exit status.  `main` catches `SystemExit` with `break`
  and then returns normally, and the `main()` call at module level never
  passes a status to the interpreter, so the process always exits 0. -/
  finalStatus : Nat
deriving DecidableEq, Repr

/-- The REPL loop of `main` (main.py lines 294-376) on pre-tokenized
lines: empty token lists are skipped (`if not tokens: continue`), a
`SystemExit` propagating out of a line breaks the loop, and reaching the
end of input also ends the loop; in both cases `main` returns normally
and the process exit status is 0. -/
def runLines (W : World) (io : IOSt) : List (List PyStr) → ShellRes
  | [] => ⟨[], 0, none, 0⟩
  | line :: rest =>
    match line with
    | [] => runLines W io rest
    | cmd :: args =>
      let r := processLine W io cmd args
      match r.exitReq with
      | some code => ⟨r.msgs, 1, some code, 0⟩
      | none =>
        let k := runLines r.world r.io rest
        ⟨r.msgs ++ k.msgs, k.processedLines + 1, k.caughtExit, k.finalStatus⟩

/-!
## A concrete world for witnesses and counterexamples

A tiny filesystem: `/bin/ls` is an executable regular file, `/home/u` and
`/tmp` are directories, `PATH` is `/bin`, the user's home is `/home/u`,
and every `open`/`chdir` succeeds.
-/

/-- Concrete world used by witness and counterexample theorems. -/
def Wbase : World :=
  { env := [(pystr "PATH", pystr "/bin"), (pystr "HOME", pystr "/home/u")]
    cwd := pystr "/home/u"
    fsExists := fun p =>
      p = pystr "/bin/ls" ∨ p = pystr "/home/u" ∨ p = pystr "/tmp"
    fsIsFile := fun p => p = pystr "/bin/ls"
    fsIsDir := fun p => p = pystr "/home/u" ∨ p = pystr "/tmp"
    fsAccessX := fun p => p = pystr "/bin/ls"
    chdirOk := fun _ => true
    expanduser := fun s => pystr "/home/u" ++ s.drop 1
    execCache := []
    openOk := fun _ _ => true
    runExit := fun _ _ => 0
    probes := 0 }

/-- The spec field of a `ParseOut` selected by a stream name. -/
def ParseOut.spec (P : ParseOut) (s : StreamName) : Option Info :=
  match s with
  | .out => P.so
  | .err => P.se
  | .inp => P.si

/-!
# Theorems
-/

/-- Claim C9: for every finite token list, the scanning loop of
`parse_redirections` terminates after at most `tokens.length` iterations
(each iteration consumes at least one token), and the parse is a total
function. -/
theorem parse_redirections_iterations_le :
    (ts : List PyStr) → parseIters ts ≤ ts.length
  | [] => by simp [parseIters]
  | [t] => by simp [parseIters]
  | t :: x :: rest => by
    have ih1 := parse_redirections_iterations_le (x :: rest)
    have ih2 := parse_redirections_iterations_le rest
    simp only [parseIters, List.length_cons]
    cases h : redirStep t (some x) with
    | none => simp only [List.length_cons] at ih1; simp; omega
    | some v =>
      obtain ⟨s, info, adv⟩ := v
      cases adv with
      | false => simp only [List.length_cons] at ih1; simp; omega
      | true => simp; omega

/-- Each of the five `startswith` arms already captures every bare
operator token, so the "Separate tokens" arm of the loop body never
fires: both step functions agree everywhere. -/
theorem redirStep_eq_noSep (t : PyStr) (nxt : Option PyStr) :
    redirStepNoSep t nxt = redirStep t nxt := by
  unfold redirStep redirStepNoSep
  by_cases h1 : pyStartsWith t (pystr "1>>") ∨ pyStartsWith t (pystr ">>")
  · simp only [h1, if_true]
  by_cases h2 : pyStartsWith t (pystr "1>") ∨ pyStartsWith t (pystr ">")
  · simp only [h1, h2, if_false, if_true]
  by_cases h3 : pyStartsWith t (pystr "2>>") = true
  · simp only [h1, h2, h3, if_false, if_true]
  by_cases h4 : pyStartsWith t (pystr "2>") = true
  · simp only [h1, h2, h3, h4, if_false, if_true]
  by_cases h5 : pyStartsWith t (pystr "<") = true
  · simp only [h1, h2, h3, h4, h5, if_false, if_true]
  have h6 : ¬(t = pystr ">" ∨ t = pystr ">>" ∨ t = pystr "1>" ∨
      t = pystr "1>>" ∨ t = pystr "2>" ∨ t = pystr "2>>" ∨ t = pystr "<") := by
    rintro (rfl | rfl | rfl | rfl | rfl | rfl | rfl)
    · exact h2 (Or.inr (by decide))
    · exact h1 (Or.inr (by decide))
    · exact h2 (Or.inl (by decide))
    · exact h1 (Or.inl (by decide))
    · exact h4 (by decide)
    · exact h3 (by decide)
    · exact h5 (by decide)
  simp only [h1, h2, h3, h4, h5, h6, if_false]

/-- The two scanning loops agree. -/
theorem parseLoop_eq_noSep (ts : List PyStr) (acc : ParseAcc) :
    parseLoopNoSep ts acc = parseLoop ts acc := by
  induction ts, acc using parseLoopNoSep.induct <;>
    simp_all [parseLoopNoSep, parseLoop, redirStep_eq_noSep]

/-- Claim C8: the dedicated "Separate tokens" branch of
`parse_redirections` is dead code: every bare operator token is consumed
by an earlier `startswith` branch with an empty attached remainder, so
the parser with that branch deleted is observationally equal to the
parser as written. -/
theorem parse_redirections_noSep_eq (tokens : List PyStr) :
    parse_redirections_noSep tokens = parse_redirections tokens := by
  unfold parse_redirections_noSep parse_redirections
  rw [parseLoop_eq_noSep]

/-- A token beginning with none of the recognized operator prefixes is
not handled by any arm of the loop body. -/
theorem redirStep_none_of_noPrefix (t : PyStr) (nxt : Option PyStr)
    (h1 : pyStartsWith t (pystr ">") = false)
    (h2 : pyStartsWith t (pystr ">>") = false)
    (h3 : pyStartsWith t (pystr "1>") = false)
    (h4 : pyStartsWith t (pystr "1>>") = false)
    (h5 : pyStartsWith t (pystr "2>") = false)
    (h6 : pyStartsWith t (pystr "2>>") = false)
    (h7 : pyStartsWith t (pystr "<") = false) :
    redirStep t nxt = none := by
  have hbare : ¬(t = pystr ">" ∨ t = pystr ">>" ∨ t = pystr "1>" ∨
      t = pystr "1>>" ∨ t = pystr "2>" ∨ t = pystr "2>>" ∨ t = pystr "<") := by
    rintro (rfl | rfl | rfl | rfl | rfl | rfl | rfl)
    · exact absurd h1 (by decide)
    · exact absurd h2 (by decide)
    · exact absurd h3 (by decide)
    · exact absurd h4 (by decide)
    · exact absurd h5 (by decide)
    · exact absurd h6 (by decide)
    · exact absurd h7 (by decide)
  unfold redirStep
  simp [h1, h2, h3, h4, h5, h6, h7, hbare]

/-- Under the no-prefix hypothesis the loop only accumulates `cleaned`. -/
theorem parseLoop_passthrough (ts : List PyStr)
    (H : ∀ t ∈ ts, ∀ nxt, redirStep t nxt = none) :
    ∀ acc : ParseAcc,
      parseLoop ts acc = { acc with cleaned := acc.cleaned ++ ts } := by
  induction ts with
  | nil => intro acc; simp [parseLoop]
  | cons t tail ih =>
    intro acc
    have ht := H t (by simp)
    have Ht : ∀ u ∈ tail, ∀ nxt, redirStep u nxt = none := by
      intro u hu; exact H u (by simp [hu])
    cases tail with
    | nil => simp [parseLoop, ht]
    | cons x rest =>
      rw [parseLoop, ht (some x), ih Ht]
      simp

/-- Claim C6: if no token begins with any recognized redirection-operator
prefix (`">"`, `">>"`, `"1>"`, `"1>>"`, `"2>"`, `"2>>"`, `"<"`), the
Redirection Parser returns the token list unchanged, all three
redirection specs are absent, and no diagnostic is printed. -/
theorem parse_redirections_passthrough (tokens : List PyStr)
    (H : ∀ t ∈ tokens,
      pyStartsWith t (pystr ">") = false ∧
      pyStartsWith t (pystr ">>") = false ∧
      pyStartsWith t (pystr "1>") = false ∧
      pyStartsWith t (pystr "1>>") = false ∧
      pyStartsWith t (pystr "2>") = false ∧
      pyStartsWith t (pystr "2>>") = false ∧
      pyStartsWith t (pystr "<") = false) :
    parse_redirections tokens = ⟨tokens, none, none, none, []⟩ := by
  have Hn : ∀ t ∈ tokens, ∀ nxt, redirStep t nxt = none := by
    intro t ht nxt
    obtain ⟨h1, h2, h3, h4, h5, h6, h7⟩ := H t ht
    exact redirStep_none_of_noPrefix t nxt h1 h2 h3 h4 h5 h6 h7
  unfold parse_redirections
  rw [parseLoop_passthrough tokens Hn]
  simp [infoBad]

/-- Witness for C6 at a concrete token list. -/
theorem parse_redirections_passthrough_witness :
    (∀ t ∈ [pystr "foo", pystr "a1", pystr "-n"],
      pyStartsWith t (pystr ">") = false ∧
      pyStartsWith t (pystr ">>") = false ∧
      pyStartsWith t (pystr "1>") = false ∧
      pyStartsWith t (pystr "1>>") = false ∧
      pyStartsWith t (pystr "2>") = false ∧
      pyStartsWith t (pystr "2>>") = false ∧
      pyStartsWith t (pystr "<") = false) ∧
    parse_redirections [pystr "foo", pystr "a1", pystr "-n"] =
      ⟨[pystr "foo", pystr "a1", pystr "-n"], none, none, none, []⟩ :=
  ⟨by decide, parse_redirections_passthrough _ (by decide)⟩

/-- Reading one stream after writing one stream is the overwriting fold
step. -/
theorem getStreamInfo_set (s s' : StreamName) (i : Info) (acc : ParseAcc) :
    getStreamInfo s (setStreamInfo s' i acc) =
      lastUpd s (getStreamInfo s acc) (s', i) := by
  cases s <;> cases s' <;> simp [getStreamInfo, setStreamInfo, lastUpd]

/-- Appending to `cleaned` does not change the stream fields. -/
theorem getStreamInfo_cleaned (s : StreamName) (acc : ParseAcc) (c : List PyStr) :
    getStreamInfo s { acc with cleaned := c } = getStreamInfo s acc := by
  cases s <;> simp [getStreamInfo]

/-- The scanning loop computes, for each stream, the overwriting fold of
the assignment events: later assignments to the same stream win. -/
theorem parseLoop_getStream (s : StreamName) (ts : List PyStr) (acc : ParseAcc) :
    getStreamInfo s (parseLoop ts acc) =
      (redirEvents ts).foldl (lastUpd s) (getStreamInfo s acc) := by
  induction ts, acc using parseLoop.induct with
  | case1 acc => simp [parseLoop, redirEvents]
  | case2 t acc h => simp [parseLoop, redirEvents, h, getStreamInfo_cleaned]
  | case3 t acc s' info b h =>
    simp [parseLoop, redirEvents, h, getStreamInfo_set]
  | case4 t x rest acc h ih =>
    simp only [parseLoop, redirEvents, h]
    rw [ih, getStreamInfo_cleaned]
  | case5 t x rest acc s' info h ih =>
    simp only [parseLoop, redirEvents, h, if_pos]
    rw [ih, getStreamInfo_set, List.foldl_cons]
  | case6 t x rest acc s' info b h hb ih =>
    simp only [parseLoop, redirEvents, h, if_neg hb]
    rw [ih, getStreamInfo_set, List.foldl_cons]

/-- Claim C7: when two or more redirection operators target the same
stream, the parser's spec for that stream is the `(filename, mode)` of
the last such operator in left-to-right order (last-wins), and the
duplicate provokes no diagnostic (provided every stream's final filename
is present and nonempty, i.e. the validation of main.py lines 231-235
passes). -/
theorem parse_redirections_last_wins (tokens : List PyStr) (s : StreamName)
    (f : PyStr) (m : Char)
    (hcount : 2 ≤ countEv s (redirEvents tokens))
    (hlast : lastEv s (redirEvents tokens) = some (some f, m))
    (hok1 : infoBad (lastEv .out (redirEvents tokens)) = false)
    (hok2 : infoBad (lastEv .err (redirEvents tokens)) = false)
    (hok3 : infoBad (lastEv .inp (redirEvents tokens)) = false) :
    (parse_redirections tokens).spec s = some (some f, m) ∧
    (parse_redirections tokens).msgs = [] := by
  have hO : (parseLoop tokens ⟨none, none, none, []⟩).stdout_info =
      lastEv .out (redirEvents tokens) :=
    parseLoop_getStream .out tokens ⟨none, none, none, []⟩
  have hE : (parseLoop tokens ⟨none, none, none, []⟩).stderr_info =
      lastEv .err (redirEvents tokens) :=
    parseLoop_getStream .err tokens ⟨none, none, none, []⟩
  have hI : (parseLoop tokens ⟨none, none, none, []⟩).stdin_info =
      lastEv .inp (redirEvents tokens) :=
    parseLoop_getStream .inp tokens ⟨none, none, none, []⟩
  have key : parse_redirections tokens =
      ⟨(parseLoop tokens ⟨none, none, none, []⟩).cleaned,
        lastEv .out (redirEvents tokens), lastEv .err (redirEvents tokens),
        lastEv .inp (redirEvents tokens), []⟩ := by
    unfold parse_redirections
    simp only [hO, hE, hI, hok1, hok2, hok3]
    simp
  rw [key]
  cases s <;> simpa [ParseOut.spec] using hlast

/-- Witness for C7: `echo >a > b` has two stdout operators (one attached,
one detached); the spec is the later `(b, 'w')` and no error is printed. -/
theorem parse_redirections_last_wins_witness :
    (2 ≤ countEv .out (redirEvents [pystr ">a", pystr ">", pystr "b"]) ∧
     lastEv .out (redirEvents [pystr ">a", pystr ">", pystr "b"]) =
       some (some (pystr "b"), 'w') ∧
     infoBad (lastEv .out (redirEvents [pystr ">a", pystr ">", pystr "b"])) = false ∧
     infoBad (lastEv .err (redirEvents [pystr ">a", pystr ">", pystr "b"])) = false ∧
     infoBad (lastEv .inp (redirEvents [pystr ">a", pystr ">", pystr "b"])) = false) ∧
    ((parse_redirections [pystr ">a", pystr ">", pystr "b"]).spec .out =
       some (some (pystr "b"), 'w') ∧
     (parse_redirections [pystr ">a", pystr ">", pystr "b"]).msgs = []) :=
  ⟨by decide,
   parse_redirections_last_wins [pystr ">a", pystr ">", pystr "b"] .out
     (pystr "b") 'w' (by decide) (by decide) (by decide) (by decide) (by decide)⟩

/-- After the directory loop, the cache always holds the loop's result
under `name`. -/
theorem searchDirs_caches (name : PyStr) :
    ∀ (ds : List PyStr) (W : World),
      lookupA (searchDirs W name ds).1.execCache name =
        some (searchDirs W name ds).2 := by
  intro ds
  induction ds with
  | nil => intro W; simp [searchDirs, lookupA]
  | cons d ds ih =>
    intro W
    by_cases hd : d = []
    · simp [searchDirs, hd, ih]
    · by_cases hp : probeOk W (pyJoin d name) = true
      · simp [searchDirs, hd, hp, lookupA]
      · simp [searchDirs, hd, hp, ih]

/-- Counterexample to claim C3 as stated: an absolute-path name that
fails the exists/regular-file/executable test is `return`ed without a
cache write (main.py line 42), so the second call probes the filesystem
again (the probe counter advances again) instead of using a cached
result — nothing was cached for it. -/
theorem find_executable_abs_fail_reprobes :
    (find_executable_in_path
        (find_executable_in_path Wbase (pystr "/nope")).1
        (pystr "/nope")).1.probes ≠
      (find_executable_in_path Wbase (pystr "/nope")).1.probes ∧
    lookupA (find_executable_in_path Wbase (pystr "/nope")).1.execCache
        (pystr "/nope") = none := by
  decide

/-- Claim C3 (amended): a second `find_executable_in_path` call with the
identical name returns the same result and leaves the world untouched
(no cache write, no filesystem probe) — for every name except an
uncached absolute path that fails the executable test, which is not
cached (main.py line 42) and is probed again on every call. -/
theorem find_executable_cached (W : World) (name : PyStr)
    (h : ¬(pyIsAbs name = true ∧ (find_executable_in_path W name).2 = none ∧
           lookupA W.execCache name = none)) :
    find_executable_in_path (find_executable_in_path W name).1 name =
      ((find_executable_in_path W name).1, (find_executable_in_path W name).2) := by
  rcases hc : lookupA W.execCache name with _ | v
  · rcases hab : pyIsAbs name with _ | _
    · -- relative: the PATH loop caches its result
      have hs := searchDirs_caches name (get_path_dirs W) W
      unfold find_executable_in_path
      simp only [hc, hab]
      simp [hs]
    · -- absolute: either the test passes (cached) or `h` is contradicted
      rcases hp : probeOk W name with _ | _
      · refine absurd ⟨hab, ?_, hc⟩ h
        unfold find_executable_in_path
        simp [hc, hab, hp]
      · unfold find_executable_in_path
        simp [hc, hab, hp, lookupA]
  · -- already cached: the first call returns `(W, v)` unchanged
    unfold find_executable_in_path
    simp [hc]

/-- Witness for the amended C3: resolving `ls` through `PATH` twice; the
second call returns the cached result and changes nothing. -/
theorem find_executable_cached_witness :
    (¬(pyIsAbs (pystr "ls") = true ∧
       (find_executable_in_path Wbase (pystr "ls")).2 = none ∧
       lookupA Wbase.execCache (pystr "ls") = none)) ∧
    find_executable_in_path
        (find_executable_in_path Wbase (pystr "ls")).1 (pystr "ls") =
      ((find_executable_in_path Wbase (pystr "ls")).1,
       (find_executable_in_path Wbase (pystr "ls")).2) :=
  ⟨by decide, find_executable_cached Wbase (pystr "ls") (by decide)⟩

/-- Appending to a nonempty path keeps its first character, hence its
absoluteness. -/
theorem pyIsAbs_append (a b : PyStr) (ha : a ≠ []) :
    pyIsAbs (a ++ b) = pyIsAbs a := by
  cases a with
  | nil => exact absurd rfl ha
  | cons c cs => simp [pyIsAbs, pyStartsWith, pystr, List.isPrefixOf]

/-- Joining anything onto an absolute base yields an absolute path. -/
theorem pyJoin_isAbs (a b : PyStr) (ha : pyIsAbs a = true) :
    pyIsAbs (pyJoin a b) = true := by
  have hne : a ≠ [] := by rintro rfl; exact absurd ha (by decide)
  unfold pyJoin
  by_cases hb : pyIsAbs b = true
  · simp [hb]
  · rw [if_neg hb]
    by_cases hc : a = [] ∨ a.getLast? = some '/'
    · rw [if_pos hc, pyIsAbs_append a b hne]
      exact ha
    · rw [if_neg hc, show a ++ '/' :: b = a ++ ('/' :: b) from rfl,
        pyIsAbs_append a ('/' :: b) hne]
      exact ha

/-- The resolved `cd` target is absolute whenever the current working
directory is. -/
theorem cd_target_isAbs (W : World) (d : PyStr) (hcwd : pyIsAbs W.cwd = true) :
    pyIsAbs (cd_target W d) = true := by
  unfold cd_target
  by_cases h : pyIsAbs (cd_expand W d) = true
  · simp [h]
  · simp only [h, if_false]
    exact pyJoin_isAbs _ _ hcwd

/-- Claim C5: `cd` with one argument: a nonexistent resolved target
prints "No such file or directory" and changes nothing; an existing
non-directory target prints "Cannot cd into a file" and changes nothing;
on success the working directory becomes the resolved target and the
`PWD` environment entry is set to it, an absolute path. -/
theorem builtin_cd_one_arg (W : World) (d : PyStr)
    (hcwd : pyIsAbs W.cwd = true) :
    pyIsAbs (cd_target W d) = true ∧
    (W.fsExists (cd_target W d) = false →
      builtin_cd W [d] = ⟨W, [Out.cdNoSuch (cd_target W d)], none⟩) ∧
    (W.fsExists (cd_target W d) = true → W.fsIsDir (cd_target W d) = false →
      builtin_cd W [d] = ⟨W, [Out.cdNotDir (cd_target W d)], none⟩) ∧
    (W.fsExists (cd_target W d) = true → W.fsIsDir (cd_target W d) = true →
     W.chdirOk (cd_target W d) = true →
      (builtin_cd W [d]).world.cwd = cd_target W d ∧
      lookupA (builtin_cd W [d]).world.env (pystr "PWD") =
        some (cd_target W d) ∧
      (builtin_cd W [d]).exitc = none) := by
  refine ⟨cd_target_isAbs W d hcwd, ?_, ?_, ?_⟩
  · intro h
    simp [builtin_cd, cd_go, h]
  · intro h1 h2
    simp [builtin_cd, cd_go, h1, h2]
  · intro h1 h2 h3
    simp [builtin_cd, cd_go, h1, h2, h3, lookupA]

/-- Witness for C5 at the concrete world: `cd /tmp` succeeds, and the
failure branches are exercised through the hypotheses being implications. -/
theorem builtin_cd_one_arg_witness :
    pyIsAbs Wbase.cwd = true ∧
    (pyIsAbs (cd_target Wbase (pystr "/tmp")) = true ∧
    (Wbase.fsExists (cd_target Wbase (pystr "/tmp")) = false →
      builtin_cd Wbase [pystr "/tmp"] =
        ⟨Wbase, [Out.cdNoSuch (cd_target Wbase (pystr "/tmp"))], none⟩) ∧
    (Wbase.fsExists (cd_target Wbase (pystr "/tmp")) = true →
     Wbase.fsIsDir (cd_target Wbase (pystr "/tmp")) = false →
      builtin_cd Wbase [pystr "/tmp"] =
        ⟨Wbase, [Out.cdNotDir (cd_target Wbase (pystr "/tmp"))], none⟩) ∧
    (Wbase.fsExists (cd_target Wbase (pystr "/tmp")) = true →
     Wbase.fsIsDir (cd_target Wbase (pystr "/tmp")) = true →
     Wbase.chdirOk (cd_target Wbase (pystr "/tmp")) = true →
      (builtin_cd Wbase [pystr "/tmp"]).world.cwd =
        cd_target Wbase (pystr "/tmp") ∧
      lookupA (builtin_cd Wbase [pystr "/tmp"]).world.env (pystr "PWD") =
        some (cd_target Wbase (pystr "/tmp")) ∧
      (builtin_cd Wbase [pystr "/tmp"]).exitc = none)) :=
  ⟨by decide, builtin_cd_one_arg Wbase (pystr "/tmp") (by decide)⟩

/-- Restoring the saved value after a swap undoes the swap. -/
theorem setS_getS (s : StreamName) (f : Nat) (io : IOSt) :
    setS s (getS s io) (setS s f io) = io := by
  obtain ⟨a, b, c⟩ := io
  cases s <;> rfl

/-- Unwinding the `ExitStack` restores every stream to its value from
before the contexts were entered. -/
theorem exitAll_enterAll :
    ∀ (cs : List (StreamName × Nat)) (io : IOSt),
      exitAll (enterAll cs io).2 (enterAll cs io).1 = io := by
  intro cs
  induction cs with
  | nil => intro io; rfl
  | cons c cs ih =>
    intro io
    obtain ⟨s, f⟩ := c
    simp only [enterAll, exitAll]
    rw [ih (setS s f io)]
    exact setS_getS s f io

/-- Claim C4: whatever path one command invocation takes — normal
completion, a builtin-reported error, a redirection-open failure, or a
process-exit request — the standard streams end the line exactly as they
started it and every file handle opened for the line's redirections is
closed. -/
theorem processLine_cleanup (W : World) (io : IOSt) (cmd : PyStr)
    (args : List PyStr) :
    (processLine W io cmd args).io = io ∧
    ∀ f ∈ (processLine W io cmd args).openedFiles,
      f ∈ (processLine W io cmd args).closedFiles := by
  unfold processLine
  rcases h1 : openOne W .out (parse_redirections args).so ([], [], 0) with st1 | fe1
  case inr => simp [h1]
  simp only [h1]
  rcases h2 : openOne W .err (parse_redirections args).se st1 with st2 | fe2
  case inr => simp [h2]
  simp only [h2]
  rcases h3 : openOne W .inp (parse_redirections args).si st2 with st3 | fe3
  case inr => simp [h3]
  simp only [h3]
  refine ⟨exitAll_enterAll st3.1 io, ?_⟩
  intro f hf
  simp_all

/-- Claim C10: if opening any redirection target fails, the command is
not executed for that line, the redirection contexts are never entered
(the standard streams are untouched), and every file opened earlier for
the same line is still closed. -/
theorem processLine_open_failure (W : World) (io : IOSt) (cmd : PyStr)
    (args : List PyStr)
    (h : openFailed W (parse_redirections args) = true) :
    (processLine W io cmd args).executed = false ∧
    (processLine W io cmd args).entered = false ∧
    (processLine W io cmd args).io = io ∧
    ∀ f ∈ (processLine W io cmd args).openedFiles,
      f ∈ (processLine W io cmd args).closedFiles := by
  unfold processLine
  unfold openFailed at h
  rcases h1 : openOne W .out (parse_redirections args).so ([], [], 0) with st1 | fe1
  case inr => simp [h1]
  simp only [h1] at h ⊢
  rcases h2 : openOne W .err (parse_redirections args).se st1 with st2 | fe2
  case inr => simp [h2]
  simp only [h2] at h ⊢
  rcases h3 : openOne W .inp (parse_redirections args).si st2 with st3 | fe3
  case inr => simp [h3]
  simp only [h3] at h
  exact absurd h (by simp)

/-- Witness for C10: `cmd >f 2>g` where opening `f` succeeds and opening
`g` fails — the stdout file (handle 0) is opened, the command does not
run, no stream is swapped, and handle 0 is closed. -/
theorem processLine_open_failure_witness :
    openFailed { Wbase with openOk := fun f _ => f = pystr "f" }
        (parse_redirections [pystr ">f", pystr "2>g"]) = true ∧
    ((processLine { Wbase with openOk := fun f _ => f = pystr "f" }
        ⟨0, 1, 2⟩ (pystr "cat") [pystr ">f", pystr "2>g"]).executed = false ∧
     (processLine { Wbase with openOk := fun f _ => f = pystr "f" }
        ⟨0, 1, 2⟩ (pystr "cat") [pystr ">f", pystr "2>g"]).entered = false ∧
     (processLine { Wbase with openOk := fun f _ => f = pystr "f" }
        ⟨0, 1, 2⟩ (pystr "cat") [pystr ">f", pystr "2>g"]).io = ⟨0, 1, 2⟩ ∧
     ∀ f ∈ (processLine { Wbase with openOk := fun f _ => f = pystr "f" }
        ⟨0, 1, 2⟩ (pystr "cat") [pystr ">f", pystr "2>g"]).openedFiles,
       f ∈ (processLine { Wbase with openOk := fun f _ => f = pystr "f" }
        ⟨0, 1, 2⟩ (pystr "cat") [pystr ">f", pystr "2>g"]).closedFiles) :=
  ⟨by decide,
   processLine_open_failure { Wbase with openOk := fun f _ => f = pystr "f" }
     ⟨0, 1, 2⟩ (pystr "cat") [pystr ">f", pystr "2>g"] (by decide)⟩

/-- When the parser prints a missing-filename diagnostic it also returns
`cleaned, None, None, None` (main.py line 235): all specs are dropped. -/
theorem parse_error_clears (args : List PyStr) (s : StreamName)
    (h : (parse_redirections args).msgs = [Out.noFilename s]) :
    (parse_redirections args).so = none ∧
    (parse_redirections args).se = none ∧
    (parse_redirections args).si = none := by
  simp only [parse_redirections] at h ⊢
  split_ifs at h ⊢ <;> simp_all

/-- Counterexample to claim C2 as stated: for `echo hi >` the parser
prints the diagnostic, but the command line does not fail — `echo hi` is
still executed (its output appears right after the diagnostic). -/
theorem missing_filename_still_executes :
    (processLine Wbase ⟨0, 1, 2⟩ (pystr "echo") [pystr "hi", pystr ">"]).msgs =
      [Out.noFilename .out, Out.line (pystr "hi")] ∧
    (processLine Wbase ⟨0, 1, 2⟩ (pystr "echo")
        [pystr "hi", pystr ">"]).executed = true := by
  decide

/-- Claim C2 (amended): when a redirection operator has neither an
attached filename nor a following token, the parser prints the
"no filename provided" diagnostic and drops *all* redirection specs for
the line; the command itself is then still executed, with the cleaned
argument list and no redirection (no file opened, streams untouched). -/
theorem processLine_missing_filename (W : World) (io : IOSt) (cmd : PyStr)
    (args : List PyStr) (s : StreamName)
    (h : (parse_redirections args).msgs = [Out.noFilename s]) :
    (processLine W io cmd args).executed = true ∧
    (processLine W io cmd args).io = io ∧
    (processLine W io cmd args).openedFiles = [] ∧
    (processLine W io cmd args).msgs =
      Out.noFilename s ::
        (execute_command W cmd (parse_redirections args).cleaned).outs := by
  obtain ⟨hso, hse, hsi⟩ := parse_error_clears args s h
  unfold processLine
  simp [hso, hse, hsi, openOne, enterAll, exitAll, h]

/-- Witness for the amended C2: `echo x 2>` prints the stderr diagnostic
and still runs `echo x`. -/
theorem processLine_missing_filename_witness :
    ((parse_redirections [pystr "x", pystr "2>"]).msgs =
      [Out.noFilename .err]) ∧
    ((processLine Wbase ⟨0, 1, 2⟩ (pystr "echo")
        [pystr "x", pystr "2>"]).executed = true ∧
     (processLine Wbase ⟨0, 1, 2⟩ (pystr "echo")
        [pystr "x", pystr "2>"]).io = ⟨0, 1, 2⟩ ∧
     (processLine Wbase ⟨0, 1, 2⟩ (pystr "echo")
        [pystr "x", pystr "2>"]).openedFiles = [] ∧
     (processLine Wbase ⟨0, 1, 2⟩ (pystr "echo")
        [pystr "x", pystr "2>"]).msgs =
       Out.noFilename .err ::
         (execute_command Wbase (pystr "echo")
           (parse_redirections [pystr "x", pystr "2>"]).cleaned).outs) :=
  ⟨by decide,
   processLine_missing_filename Wbase ⟨0, 1, 2⟩ (pystr "echo")
     [pystr "x", pystr "2>"] .err (by decide)⟩

/-- Claim C1 (the exit-status clause is a code bug): `exit` with no
arguments raises `SystemExit(0)`, the loop breaks and the process exits
with status 0; `exit 42` raises `SystemExit(42)`, but `main` swallows it
with `except SystemExit: break` (main.py lines 367-368) and returns
normally, so the process exit status is 0, not 42; `exit abc` prints the
numeric-argument message and the next line still runs; `exit 1 2` prints
the arity message and the next line still runs. -/
theorem exit_status_semantics :
    (runLines Wbase ⟨0, 1, 2⟩ [[pystr "exit"], [pystr "echo", pystr "x"]] =
      ⟨[], 1, some 0, 0⟩) ∧
    (runLines Wbase ⟨0, 1, 2⟩
        [[pystr "exit", pystr "42"], [pystr "echo", pystr "x"]] =
      ⟨[], 1, some 42, 0⟩) ∧
    (runLines Wbase ⟨0, 1, 2⟩
        [[pystr "exit", pystr "abc"], [pystr "echo", pystr "x"]] =
      ⟨[Out.exitNumeric (pystr "abc"), Out.line (pystr "x")], 2, none, 0⟩) ∧
    (runLines Wbase ⟨0, 1, 2⟩
        [[pystr "exit", pystr "1", pystr "2"], [pystr "echo", pystr "x"]] =
      ⟨[Out.exitArity 2, Out.line (pystr "x")], 2, none, 0⟩) := by
  decide
